import Mathlib

/-!
Verification of the polling-to-SSE bridge and HTTP endpoint layer of
`demo-project/app.py` (a Flask façade over the OpenAI Assistants API).

The remote assistant service is modelled as an oracle: the status returned
by the n-th poll of a run is a function `Nat → String`, and each remote
call that can raise is an `Except String` value supplied by the
environment.  Handlers return, next to their result, a trace of the remote
calls they perform, so that claims about "exactly one creation call" are
statements about the trace.
-/

/-- Status strings on which the polling loop in `generate` breaks
(`"completed"` and `"failed"`, compared by exact string equality in the
Python source). -/
def terminalStatus (s : String) : Prop :=
  s = "completed" ∨ s = "failed"

instance (s : String) : Decidable (terminalStatus s) := by
  unfold terminalStatus; infer_instance

/-- Model of one text content block of a message
(`block.text.value` in the OpenAI SDK). -/
structure TextBlock where
  value : String
deriving DecidableEq

/-- Model of a message in a thread: `role` and the list of text content
blocks (`message.content`).  `messages.data[0]` in the source is the most
recent message, so the head of `messages` below is the latest message. -/
structure Message where
  role : String
  content : List TextBlock
deriving DecidableEq

/-- Oracle for the remote run observed by the polling loop: `statusAt n`
is the status string returned by the n-th `runs.retrieve` call (polls are
assumed to succeed; a failing poll would raise out of the generator, an
unguarded path outside these claims), and `messages` is the list returned
by `messages.list` once the run is completed, most recent first. -/
structure RemoteRun where
  statusAt : Nat → String
  messages : List Message

/-- Lowercase hex digit, as used by Python `json.dumps` in `\uXXXX`
escapes. -/
def hexDigit (n : Nat) : Char :=
  if n < 10 then Char.ofNat (48 + n) else Char.ofNat (87 + n)

/-- Escaping of a single character as Python `json.dumps` (default
`ensure_ascii=True`) renders it inside a JSON string: the two-character
escapes for quote, backslash and common control characters, `\uXXXX` for
the remaining control and non-ASCII characters (codepoints above the
basic multilingual plane, which Python renders as surrogate pairs, are
not modelled). -/
def jsonEscapeChar (c : Char) : String :=
  if c = '"' then "\\\""
  else if c = '\\' then "\\\\"
  else if c = '\n' then "\\n"
  else if c = '\r' then "\\r"
  else if c = '\t' then "\\t"
  else if c.toNat = 8 then "\\b"
  else if c.toNat = 12 then "\\f"
  else if c.toNat < 32 ∨ 126 < c.toNat then
    "\\u" ++ String.mk [hexDigit (c.toNat / 4096 % 16), hexDigit (c.toNat / 256 % 16),
      hexDigit (c.toNat / 16 % 16), hexDigit (c.toNat % 16)]
  else String.singleton c

/-- JSON string literal for `s`, as `json.dumps` renders it. -/
def jsonStr (s : String) : String :=
  "\"" ++ String.join (s.toList.map jsonEscapeChar) ++ "\""

/-- JSON object with one key, with `json.dumps`'s default separators. -/
def jsonObj1 (k v : String) : String :=
  "\x7b" ++ jsonStr k ++ ": " ++ jsonStr v ++ "\x7d"

/-- JSON object with two keys in insertion order, with `json.dumps`'s
default separators (Python dicts preserve insertion order). -/
def jsonObj2 (k1 v1 k2 v2 : String) : String :=
  "\x7b" ++ jsonStr k1 ++ ": " ++ jsonStr v1 ++ ", " ++ jsonStr k2 ++ ": " ++ jsonStr v2 ++ "\x7d"

/-- SSE wire framing of one data frame: `"data: " + json + "\n\n"`. -/
def sseFrame (j : String) : String :=
  "data: " ++ j ++ "\n\n"

/-- The frame yielded on the completed path:
`json.dumps(\x7b"content": ..., "thread_id": ...\x7d)` inside an SSE frame. -/
def contentFrame (v tid : String) : String :=
  sseFrame (jsonObj2 "content" v "thread_id" tid)

/-- The frame yielded on the failed path. -/
def errorFrame (tid : String) : String :=
  sseFrame (jsonObj2 "error" "Assistant run failed" "thread_id" tid)

/-- Observable events of the generator body, in order: a `runs.retrieve`
poll returning a status, a `messages.list` call, a `time.sleep` (duration
in milliseconds), and a yielded SSE frame. -/
inductive Ev where
  | poll (status : String)
  | listMessages
  | sleep (ms : Nat)
  | emit (frame : String)
deriving DecidableEq

/-- Result of running the generator with a given amount of fuel:
the event trace, whether the `while` loop exited by `break` within the
fuel, and whether a Python exception (an `IndexError` from `data[0]` or
`content[0]` on an empty list) escaped the generator. -/
structure GenOut where
  trace : List Ev
  terminated : Bool
  exn : Bool
deriving DecidableEq

/-- The `while True` polling loop of `generate` in `/chat`, from poll
index `i` on, with the remaining fuel as the recursion measure (the
Python loop is unbounded; `fuel` only truncates observation).  Mirrors
`app.py` lines 88–114: on `"completed"`, list the messages, and only if
the latest message's role is `"assistant"` yield one content frame, then
break; on `"failed"`, yield one error frame, then break; on anything
else, sleep 500 ms and poll again. -/
def generateLoop (run : RemoteRun) (threadId : String) : Nat → Nat → GenOut
  | _, 0 => ⟨[], false, false⟩
  | i, fuel+1 =>
    let st := run.statusAt i
    if st = "completed" then
      match run.messages with
      | [] => ⟨[Ev.poll st, Ev.listMessages], false, true⟩
      | latest :: _ =>
        if latest.role = "assistant" then
          match latest.content with
          | [] => ⟨[Ev.poll st, Ev.listMessages], false, true⟩
          | tb :: _ =>
            ⟨[Ev.poll st, Ev.listMessages, Ev.emit (contentFrame tb.value threadId)], true, false⟩
        else ⟨[Ev.poll st, Ev.listMessages], true, false⟩
    else if st = "failed" then
      ⟨[Ev.poll st, Ev.emit (errorFrame threadId)], true, false⟩
    else
      let rest := generateLoop run threadId (i+1) fuel
      ⟨Ev.poll st :: Ev.sleep 500 :: rest.trace, rest.terminated, rest.exn⟩

/-- The generator of `/chat`, started at poll index 0. -/
def generate (run : RemoteRun) (threadId : String) (fuel : Nat) : GenOut :=
  generateLoop run threadId 0 fuel

/-- The SSE frames yielded along a trace, in order. -/
def emits (t : List Ev) : List String :=
  t.filterMap fun e =>
    match e with
    | Ev.emit f => some f
    | _ => none

/-- Claim C2: a run whose first polled status is `"failed"` produces
exactly one frame, whose JSON body is
`\x7b"error": "Assistant run failed", "thread_id": <id>\x7d`, as the final
event of the stream; the loop then breaks (the stream closes), emitting
nothing further. -/
theorem c2_failed_run_single_error_frame (run : RemoteRun) (tid : String) (fuel : Nat)
    (hs : run.statusAt 0 = "failed") (hf : 1 ≤ fuel) :
    generate run tid fuel =
      ⟨[Ev.poll "failed", Ev.emit (errorFrame tid)], true, false⟩ ∧
    errorFrame tid = sseFrame (jsonObj2 "error" "Assistant run failed" "thread_id" tid) := by
  obtain ⟨n, rfl⟩ := Nat.exists_eq_add_of_le hf
  refine ⟨?_, rfl⟩
  show generateLoop run tid 0 (1 + n) = _
  rw [Nat.add_comm 1 n]
  simp [generateLoop, hs]

/-- Witness for C2 at a concrete run. -/
theorem c2_failed_run_single_error_frame_witness :
    generate ⟨fun _ => "failed", []⟩ "thread_abc" 5 =
      ⟨[Ev.poll "failed", Ev.emit (errorFrame "thread_abc")], true, false⟩ :=
  (c2_failed_run_single_error_frame ⟨fun _ => "failed", []⟩ "thread_abc" 5 rfl (by decide)).1

/-- Claim C1: a run polled as pending, pending, completed (the first two
statuses neither `"completed"` nor `"failed"`), whose latest message has
role `"assistant"`, yields exactly one frame — content field the first
text block's value, thread_id field the thread's id — and that frame
comes only after three polls with the fixed 500 ms sleep between
consecutive polls; the loop then breaks. -/
theorem c1_pending_pending_completed (run : RemoteRun) (tid : String) (fuel : Nat)
    (m : Message) (ms : List Message) (tb : TextBlock) (tbs : List TextBlock)
    (h0 : ¬ terminalStatus (run.statusAt 0)) (h1 : ¬ terminalStatus (run.statusAt 1))
    (h2 : run.statusAt 2 = "completed")
    (hm : run.messages = m :: ms) (hrole : m.role = "assistant")
    (hc : m.content = tb :: tbs) (hf : 3 ≤ fuel) :
    generate run tid fuel =
      ⟨[Ev.poll (run.statusAt 0), Ev.sleep 500,
        Ev.poll (run.statusAt 1), Ev.sleep 500,
        Ev.poll "completed", Ev.listMessages, Ev.emit (contentFrame tb.value tid)],
       true, false⟩ ∧
    emits (generate run tid fuel).trace = [contentFrame tb.value tid] := by
  obtain ⟨n, rfl⟩ := Nat.exists_eq_add_of_le hf
  have h0c : ¬ run.statusAt 0 = "completed" := fun h => h0 (Or.inl h)
  have h0f : ¬ run.statusAt 0 = "failed" := fun h => h0 (Or.inr h)
  have h1c : ¬ run.statusAt 1 = "completed" := fun h => h1 (Or.inl h)
  have h1f : ¬ run.statusAt 1 = "failed" := fun h => h1 (Or.inr h)
  have key : generate run tid (3 + n) =
      ⟨[Ev.poll (run.statusAt 0), Ev.sleep 500,
        Ev.poll (run.statusAt 1), Ev.sleep 500,
        Ev.poll "completed", Ev.listMessages, Ev.emit (contentFrame tb.value tid)],
       true, false⟩ := by
    show generateLoop run tid 0 (3 + n) = _
    rw [Nat.add_comm 3 n, show n + 3 = (n + 2) + 1 from rfl, show n + 2 = (n + 1) + 1 from rfl]
    simp only [generateLoop, h0c, h0f, h1c, h1f, h2, hm, hrole, hc, if_false, if_true,
      if_neg, if_pos, ite_false, ite_true]
  exact ⟨key, by rw [key]; rfl⟩

/-- Witness for C1 at a concrete run (queued, in_progress, completed). -/
theorem c1_pending_pending_completed_witness :
    generate ⟨fun n => if n = 0 then "queued" else if n = 1 then "in_progress" else "completed",
        [⟨"assistant", [⟨"Hello!"⟩]⟩]⟩ "thread_abc" 3 =
      ⟨[Ev.poll "queued", Ev.sleep 500, Ev.poll "in_progress", Ev.sleep 500,
        Ev.poll "completed", Ev.listMessages,
        Ev.emit (contentFrame "Hello!" "thread_abc")], true, false⟩ :=
  (c1_pending_pending_completed
    ⟨fun n => if n = 0 then "queued" else if n = 1 then "in_progress" else "completed",
      [⟨"assistant", [⟨"Hello!"⟩]⟩]⟩ "thread_abc" 3
    ⟨"assistant", [⟨"Hello!"⟩]⟩ [] ⟨"Hello!"⟩ []
    (by decide) (by decide) rfl rfl rfl rfl (by decide)).1

lemma emits_poll (s : String) (t : List Ev) : emits (Ev.poll s :: t) = emits t := rfl

lemma emits_sleep (n : Nat) (t : List Ev) : emits (Ev.sleep n :: t) = emits t := rfl

lemma emits_listMessages (t : List Ev) : emits (Ev.listMessages :: t) = emits t := rfl

lemma emits_emit (f : String) (t : List Ev) : emits (Ev.emit f :: t) = f :: emits t := rfl

lemma emits_append (a b : List Ev) : emits (a ++ b) = emits a ++ emits b :=
  List.filterMap_append a b _

/-- Structural characterization of a run of the generator: either no
frame is emitted at all, or the trace ends in the unique emitted frame,
the loop has exited, and the frame is a content frame or the error frame
for the generator's thread id. -/
lemma generateLoop_shape (run : RemoteRun) (tid : String) :
    ∀ fuel i,
      emits (generateLoop run tid i fuel).trace = [] ∨
      ∃ pre f, (generateLoop run tid i fuel).trace = pre ++ [Ev.emit f] ∧ emits pre = [] ∧
        (generateLoop run tid i fuel).terminated = true ∧
        ((∃ v, f = contentFrame v tid) ∨ f = errorFrame tid) := by
  intro fuel
  induction fuel with
  | zero => intro i; exact Or.inl rfl
  | succ f ih =>
    intro i
    by_cases hc : run.statusAt i = "completed"
    · cases hm : run.messages with
      | nil => left; simp [generateLoop, hc, hm, emits]
      | cons m ms =>
        by_cases hrole : m.role = "assistant"
        · cases hcont : m.content with
          | nil => left; simp [generateLoop, hc, hm, hrole, hcont, emits]
          | cons tb tbs =>
            right
            refine ⟨[Ev.poll (run.statusAt i), Ev.listMessages], contentFrame tb.value tid,
              ?_, rfl, ?_, Or.inl ⟨tb.value, rfl⟩⟩
            · simp [generateLoop, hc, hm, hrole, hcont]
            · simp [generateLoop, hc, hm, hrole, hcont]
        · left; simp [generateLoop, hc, hm, hrole, emits]
    · by_cases hfail : run.statusAt i = "failed"
      · right
        refine ⟨[Ev.poll (run.statusAt i)], errorFrame tid, ?_, rfl, ?_, Or.inr rfl⟩
        · simp [generateLoop, hc, hfail]
        · simp [generateLoop, hc, hfail]
      · rcases ih (i + 1) with h | ⟨pre, fr, htr, hpre, hterm, hform⟩
        · left
          simp only [generateLoop, hc, hfail, if_neg, ite_false]
          rw [emits_poll, emits_sleep]
          exact h
        · right
          refine ⟨Ev.poll (run.statusAt i) :: Ev.sleep 500 :: pre, fr, ?_, ?_, ?_, hform⟩
          · simp only [generateLoop, hc, hfail, if_neg, ite_false]
            simp [htr]
          · rw [emits_poll, emits_sleep]; exact hpre
          · simp only [generateLoop, hc, hfail, if_neg, ite_false]
            exact hterm

/-- On the completed-but-non-assistant-latest-message path the generator
yields nothing and the loop exits. -/
lemma generateLoop_silent_nonassistant (run : RemoteRun) (tid : String)
    (m : Message) (ms : List Message)
    (hm : run.messages = m :: ms) (hrole : ¬ m.role = "assistant") :
    ∀ k i fuel, k < fuel → (∀ j, j < k → ¬ terminalStatus (run.statusAt (i + j))) →
      run.statusAt (i + k) = "completed" →
      emits (generateLoop run tid i fuel).trace = [] ∧
      (generateLoop run tid i fuel).terminated = true := by
  intro k
  induction k with
  | zero =>
    intro i fuel hk _ hc
    cases fuel with
    | zero => omega
    | succ f =>
      rw [Nat.add_zero] at hc
      constructor <;> simp [generateLoop, hc, hm, hrole, emits]
  | succ k ih =>
    intro i fuel hk hj hc
    cases fuel with
    | zero => omega
    | succ f =>
      have h0 := hj 0 (Nat.succ_pos k)
      rw [Nat.add_zero] at h0
      have h0c : ¬ run.statusAt i = "completed" := fun h => h0 (Or.inl h)
      have h0f : ¬ run.statusAt i = "failed" := fun h => h0 (Or.inr h)
      have hrec := ih (i + 1) f (Nat.lt_of_succ_lt_succ hk)
        (fun j hjk => by
          have := hj (j + 1) (Nat.succ_lt_succ hjk)
          rwa [show i + (j + 1) = i + 1 + j by omega] at this)
        (by rwa [show i + 1 + k = i + (k + 1) by omega])
      constructor
      · simp only [generateLoop, h0c, h0f, if_neg, ite_false]
        rw [emits_poll, emits_sleep]
        exact hrec.1
      · simp only [generateLoop, h0c, h0f, if_neg, ite_false]
        exact hrec.2

/-- Claim C3: over every polled status sequence the generator yields at
most one frame; every yielded frame has the SSE wire form
`"data: " ++ <JSON object> ++ "\n\n"` with a `thread_id` field holding the
generator's thread id; when a frame is yielded it is the trace's final
event and the loop has exited (the stream closes immediately after it);
and on the completed-but-non-assistant-latest-message path the stream
closes with zero frames. -/
theorem c3_frame_invariants (run : RemoteRun) (tid : String) (fuel : Nat) :
    (emits (generate run tid fuel).trace).length ≤ 1 ∧
    (∀ f, f ∈ emits (generate run tid fuel).trace →
       ∃ k v, f = sseFrame (jsonObj2 k v "thread_id" tid)) ∧
    (emits (generate run tid fuel).trace = [] ∨
       ∃ pre f, (generate run tid fuel).trace = pre ++ [Ev.emit f] ∧ emits pre = [] ∧
         (generate run tid fuel).terminated = true) ∧
    (∀ k m ms, k < fuel → (∀ j, j < k → ¬ terminalStatus (run.statusAt j)) →
       run.statusAt k = "completed" → run.messages = m :: ms → ¬ m.role = "assistant" →
       emits (generate run tid fuel).trace = [] ∧ (generate run tid fuel).terminated = true) := by
  have hshape := generateLoop_shape run tid fuel 0
  have hemits : emits (generate run tid fuel).trace = [] ∨
      ∃ f, emits (generate run tid fuel).trace = [f] ∧
        ((∃ v, f = contentFrame v tid) ∨ f = errorFrame tid) := by
    rcases hshape with h | ⟨pre, f, htr, hpre, _, hform⟩
    · exact Or.inl h
    · right
      refine ⟨f, ?_, hform⟩
      show emits (generateLoop run tid 0 fuel).trace = [f]
      rw [htr, emits_append, hpre, emits_emit]
      rfl
  refine ⟨?_, ?_, ?_, ?_⟩
  · rcases hemits with h | ⟨f, h, _⟩ <;> simp [h]
  · intro f hf
    rcases hemits with h | ⟨f0, h, hform⟩
    · rw [h] at hf; cases hf
    · rw [h] at hf
      have hf0 : f = f0 := by simpa using hf
      subst hf0
      rcases hform with ⟨v, hv⟩ | hv
      · exact ⟨"content", v, hv⟩
      · exact ⟨"error", "Assistant run failed", hv⟩
  · rcases hshape with h | ⟨pre, f, htr, hpre, hterm, _⟩
    · exact Or.inl h
    · exact Or.inr ⟨pre, f, htr, hpre, hterm⟩
  · intro k m ms hk hj hc hm hrole
    exact generateLoop_silent_nonassistant run tid m ms hm hrole k 0 fuel hk
      (by simpa using hj) (by simpa using hc)

/-- Witness for C3 at a concrete run: completed at once, but the latest
message has role `"user"`, so zero frames and a closed stream. -/
theorem c3_frame_invariants_witness :
    (emits (generate ⟨fun _ => "completed", [⟨"user", []⟩]⟩ "thread_abc" 3).trace).length ≤ 1 ∧
    emits (generate ⟨fun _ => "completed", [⟨"user", []⟩]⟩ "thread_abc" 3).trace = [] ∧
    (generate ⟨fun _ => "completed", [⟨"user", []⟩]⟩ "thread_abc" 3).terminated = true := by
  have h := c3_frame_invariants ⟨fun _ => "completed", [⟨"user", []⟩]⟩ "thread_abc" 3
  have h4 := h.2.2.2 0 ⟨"user", []⟩ [] (by decide)
    (fun j hj => absurd hj (Nat.not_lt_zero j)) rfl rfl (by decide)
  exact ⟨h.1, h4.1, h4.2⟩

/-- One step from a terminal status: once a poll returns `"completed"` or
`"failed"`, the loop exits this iteration, by `break` or by an exception
(an empty message list or an empty content list raises `IndexError`). -/
lemma generateLoop_terminal_head (run : RemoteRun) (tid : String) (i fuel : Nat)
    (h : terminalStatus (run.statusAt i)) :
    (generateLoop run tid i (fuel + 1)).terminated = true ∨
    (generateLoop run tid i (fuel + 1)).exn = true := by
  rcases h with hc | hf
  · cases hm : run.messages with
    | nil => right; simp [generateLoop, hc, hm]
    | cons m ms =>
      by_cases hrole : m.role = "assistant"
      · cases hcont : m.content with
        | nil => right; simp [generateLoop, hc, hm, hrole, hcont]
        | cons tb tbs => left; simp [generateLoop, hc, hm, hrole, hcont]
      · left; simp [generateLoop, hc, hm, hrole]
  · by_cases hc : run.statusAt i = "completed"
    · exact absurd (hc.symm.trans hf) (by decide)
    · left; simp [generateLoop, hc, hf]

/-- With no terminal status ever polled, the loop is still running after
any amount of fuel: no frame, no `break`, no exception. -/
lemma generateLoop_never_terminal (run : RemoteRun) (tid : String)
    (h : ∀ n, ¬ terminalStatus (run.statusAt n)) :
    ∀ fuel i, emits (generateLoop run tid i fuel).trace = [] ∧
      (generateLoop run tid i fuel).terminated = false ∧
      (generateLoop run tid i fuel).exn = false := by
  intro fuel
  induction fuel with
  | zero => intro i; exact ⟨rfl, rfl, rfl⟩
  | succ f ih =>
    intro i
    have hi := h i
    have hc : ¬ run.statusAt i = "completed" := fun hx => hi (Or.inl hx)
    have hf : ¬ run.statusAt i = "failed" := fun hx => hi (Or.inr hx)
    have hrec := ih (i + 1)
    refine ⟨?_, ?_, ?_⟩
    · simp only [generateLoop, hc, hf, if_neg, ite_false]
      rw [emits_poll, emits_sleep]
      exact hrec.1
    · simp only [generateLoop, hc, hf, if_neg, ite_false]
      exact hrec.2.1
    · simp only [generateLoop, hc, hf, if_neg, ite_false]
      exact hrec.2.2

/-- If some poll within the fuel returns a terminal status, the loop
stops (normally or by exception). -/
lemma generateLoop_terminal_stops (run : RemoteRun) (tid : String) :
    ∀ k fuel i, k < fuel → terminalStatus (run.statusAt (i + k)) →
      (generateLoop run tid i fuel).terminated = true ∨
      (generateLoop run tid i fuel).exn = true := by
  intro k
  induction k with
  | zero =>
    intro fuel i hk ht
    cases fuel with
    | zero => omega
    | succ f =>
      rw [Nat.add_zero] at ht
      exact generateLoop_terminal_head run tid i f ht
  | succ k ih =>
    intro fuel i hk ht
    cases fuel with
    | zero => omega
    | succ f =>
      by_cases hterm : terminalStatus (run.statusAt i)
      · exact generateLoop_terminal_head run tid i f hterm
      · have hc : ¬ run.statusAt i = "completed" := fun hx => hterm (Or.inl hx)
        have hfl : ¬ run.statusAt i = "failed" := fun hx => hterm (Or.inr hx)
        have hrec := ih f (i + 1) (Nat.lt_of_succ_lt_succ hk)
          (by rwa [show i + 1 + k = i + (k + 1) by omega])
        rcases hrec with h | h
        · left
          simp only [generateLoop, hc, hfl, if_neg, ite_false]
          exact h
        · right
          simp only [generateLoop, hc, hfl, if_neg, ite_false]
          exact h

/-- Claim C4: the polling loop stops exactly on the statuses
`"completed"` and `"failed"`.  If no poll ever returns one of those two
strings (perpetual `"queued"`/`"in_progress"`, or `"cancelled"`,
`"expired"`, `"requires_action"`), then after any amount of fuel the loop
is still polling, has emitted no frame and has not closed the stream;
conversely, if some poll within the fuel returns a terminal status, the
loop stops in that iteration. -/
theorem c4_terminates_iff_terminal_status (run : RemoteRun) (tid : String) :
    ((∀ n, ¬ terminalStatus (run.statusAt n)) → ∀ fuel,
       emits (generate run tid fuel).trace = [] ∧
       (generate run tid fuel).terminated = false ∧
       (generate run tid fuel).exn = false) ∧
    (∀ k fuel, k < fuel → terminalStatus (run.statusAt k) →
       (generate run tid fuel).terminated = true ∨
       (generate run tid fuel).exn = true) := by
  constructor
  · intro h fuel
    exact generateLoop_never_terminal run tid h fuel 0
  · intro k fuel hk ht
    exact generateLoop_terminal_stops run tid k fuel 0 hk (by simpa using ht)

/-- Witness for C4: a run stuck on `"cancelled"` never stops and emits
nothing within fuel 4, while a run reporting `"failed"` at the first poll
stops within fuel 1. -/
theorem c4_terminates_iff_terminal_status_witness :
    (emits (generate ⟨fun _ => "cancelled", []⟩ "thread_abc" 4).trace = [] ∧
      (generate ⟨fun _ => "cancelled", []⟩ "thread_abc" 4).terminated = false ∧
      (generate ⟨fun _ => "cancelled", []⟩ "thread_abc" 4).exn = false) ∧
    ((generate ⟨fun _ => "failed", []⟩ "thread_abc" 1).terminated = true ∨
      (generate ⟨fun _ => "failed", []⟩ "thread_abc" 1).exn = true) := by
  constructor
  · exact (c4_terminates_iff_terminal_status ⟨fun _ => "cancelled", []⟩ "thread_abc").1
      (fun n => show ¬ terminalStatus "cancelled" by decide) 4
  · exact (c4_terminates_iff_terminal_status ⟨fun _ => "failed", []⟩ "thread_abc").2
      0 1 (by decide) (by decide)

/-- Remote calls the handlers can make against the assistant service,
with the arguments the claims talk about. -/
inductive RemoteCall where
  | assistantsRetrieve (assistantId : String)
  | assistantsCreate
  | assistantsUpdate (assistantId : String) (fileIds : List String)
  | threadsCreate
  | messagesCreate (threadId role content : String)
  | runsCreate (threadId assistantId : String)
  | filesCreate
deriving DecidableEq

/-- Python truthiness of an optional string: `None` and `""` are falsy.
`data.get("thread_id")` yields `None` both when the key is missing and
when it is JSON `null`. -/
def truthy : Option String → Bool
  | none => false
  | some s => ¬ s = ""

/-- Oracle for the remote calls made at startup by
`get_or_create_assistant`: the outcome of `assistants.retrieve` per id,
and of `assistants.create` (returning the fresh assistant's id). -/
structure ProvisionEnv where
  retrieve : String → Except String Unit
  create : Except String String

/-- The startup provisioner, `app.py` lines 20–53: if `ASSISTANT_ID` is
set (non-empty — `if assistant_id:` is a truthiness test), try to
retrieve it and return it on success; on any retrieval exception, or with
no configured id, create a new assistant and return its id (a failure of
the creation call itself propagates out of the function). -/
def get_or_create_assistant (configuredId : Option String) (env : ProvisionEnv) :
    List RemoteCall × Except String String :=
  if truthy configuredId then
    let aid := configuredId.getD ""
    match env.retrieve aid with
    | Except.ok _ => ([RemoteCall.assistantsRetrieve aid], Except.ok aid)
    | Except.error _ =>
      match env.create with
      | Except.ok fresh =>
        ([RemoteCall.assistantsRetrieve aid, RemoteCall.assistantsCreate], Except.ok fresh)
      | Except.error e =>
        ([RemoteCall.assistantsRetrieve aid, RemoteCall.assistantsCreate], Except.error e)
  else
    match env.create with
    | Except.ok fresh => ([RemoteCall.assistantsCreate], Except.ok fresh)
    | Except.error e => ([RemoteCall.assistantsCreate], Except.error e)

/-- The parsed JSON body of a `/chat` request: `data.get("message", "")`
and `data.get("thread_id")`.  `none` stands for a missing key or JSON
`null`. -/
structure ChatRequest where
  message : Option String
  thread_id : Option String
deriving DecidableEq

/-- Oracle for the remote calls made inside `/chat` before streaming:
`threads.create` (returning the new thread's id), `messages.create`
(thread id and content; the role is always `"user"`), and `runs.create`
(thread id and assistant id, returning the run's id). -/
structure ChatEnv where
  threadsCreate : Except String String
  messagesCreate : String → String → Except String Unit
  runsCreate : String → String → Except String String

/-- Outcome of the `/chat` handler before any SSE frame is produced. -/
inductive ChatResult where
  /-- An exception escaped the handler: it was raised outside the
  `try` block (while reading `request.json` or calling `data.get`), so
  Flask's default error handling answers, not the handler's
  `except` clause. -/
  | unhandled (e : String)
  /-- HTTP 500 with JSON body `\x7b"error": <e>\x7d`, from the handler's
  `except Exception` clause. -/
  | serverError (e : String)
  /-- HTTP 200 `text/event-stream`: the generator runs with this thread
  id and run id. -/
  | stream (threadId runId : String)
deriving DecidableEq

/-- The `try`-block of `/chat` (`app.py` lines 68–119) once a thread id
has been fixed: post the user message, start the run, and hand the pair
to the generator.  `pre` carries the trace of the thread-resolution
step. -/
def chatAfterThread (tid message assistantId : String) (env : ChatEnv)
    (pre : List RemoteCall) : List RemoteCall × ChatResult :=
  match env.messagesCreate tid message with
  | Except.error e =>
    (pre ++ [RemoteCall.messagesCreate tid "user" message], ChatResult.serverError e)
  | Except.ok _ =>
    match env.runsCreate tid assistantId with
    | Except.error e =>
      (pre ++ [RemoteCall.messagesCreate tid "user" message,
        RemoteCall.runsCreate tid assistantId], ChatResult.serverError e)
    | Except.ok rid =>
      (pre ++ [RemoteCall.messagesCreate tid "user" message,
        RemoteCall.runsCreate tid assistantId], ChatResult.stream tid rid)

/-- The `/chat` handler, `app.py` lines 62–122.  `body` is the outcome of
`request.json` plus the two `data.get` calls, which happen before the
`try` block: a parse exception is therefore `unhandled`, not a 500 from
this handler.  Inside the `try` block, a thread is created only when the
supplied `thread_id` is falsy (`if not thread_id:`), and any exception
from the three remote calls becomes `serverError`. -/
def chat : Except String ChatRequest → String → ChatEnv → List RemoteCall × ChatResult
  | Except.error e, _, _ => ([], ChatResult.unhandled e)
  | Except.ok data, assistantId, env =>
    if truthy data.thread_id then
      chatAfterThread (data.thread_id.getD "") (data.message.getD "") assistantId env []
    else
      match env.threadsCreate with
      | Except.error e => ([RemoteCall.threadsCreate], ChatResult.serverError e)
      | Except.ok tid =>
        chatAfterThread tid (data.message.getD "") assistantId env [RemoteCall.threadsCreate]

/-- Oracle for the remote calls of `/upload`: `files.create` (returning
the uploaded file's id) and `assistants.update` (assistant id and the
`file_ids` argument). -/
structure UploadEnv where
  filesCreate : Except String String
  assistantsUpdate : String → List String → Except String Unit

/-- Outcome of the `/upload` handler. -/
inductive UploadResult where
  /-- HTTP 400 with body `\x7b"error": "No file provided"\x7d`. -/
  | noFile
  /-- HTTP 500 with body `\x7b"error": <e>\x7d`. -/
  | serverError (e : String)
  /-- HTTP 200 with body `\x7b"file_id": <fileId>\x7d`. -/
  | ok (fileId : String)
deriving DecidableEq

/-- HTTP status code and JSON body of each `/upload` outcome. -/
def uploadResponse : UploadResult → Nat × String
  | UploadResult.noFile => (400, jsonObj1 "error" "No file provided")
  | UploadResult.serverError e => (500, jsonObj1 "error" e)
  | UploadResult.ok fid => (200, jsonObj1 "file_id" fid)

/-- The `/upload` handler, `app.py` lines 124–146: reject the request
with 400 if the multipart form has no `"file"` field (before any remote
call); otherwise upload the stream, attach the returned file id to the
provisioned assistant as the singleton `file_ids=[openai_file.id]`,
and answer with the file id; exceptions from either remote call become
500. -/
def upload_file (hasFile : Bool) (assistantId : String) (env : UploadEnv) :
    List RemoteCall × UploadResult :=
  if hasFile = false then ([], UploadResult.noFile)
  else
    match env.filesCreate with
    | Except.error e => ([RemoteCall.filesCreate], UploadResult.serverError e)
    | Except.ok fid =>
      match env.assistantsUpdate assistantId [fid] with
      | Except.error e =>
        ([RemoteCall.filesCreate, RemoteCall.assistantsUpdate assistantId [fid]],
          UploadResult.serverError e)
      | Except.ok _ =>
        ([RemoteCall.filesCreate, RemoteCall.assistantsUpdate assistantId [fid]],
          UploadResult.ok fid)

/-- Whether a `ChatResult` is the handler's own HTTP 500 JSON error. -/
def isServerError : ChatResult → Bool
  | ChatResult.serverError _ => true
  | _ => false

/-- The thread id the `try`-block of `/chat` proceeds with: the supplied
one when truthy, otherwise the id answered by `threads.create`. -/
def resolvesTo (data : ChatRequest) (env : ChatEnv) (tid : String) : Prop :=
  (truthy data.thread_id = true ∧ data.thread_id = some tid) ∨
  (truthy data.thread_id = false ∧ env.threadsCreate = Except.ok tid)

lemma chatAfterThread_trace (tid message aid : String) (env : ChatEnv)
    (pre : List RemoteCall) :
    ∃ rest, (chatAfterThread tid message aid env pre).1 = pre ++ rest ∧
      rest.count RemoteCall.threadsCreate = 0 := by
  unfold chatAfterThread
  cases env.messagesCreate tid message with
  | error e =>
    exact ⟨[RemoteCall.messagesCreate tid "user" message], rfl,
      by simp [List.count_cons]⟩
  | ok u =>
    cases env.runsCreate tid aid with
    | error e =>
      exact ⟨[RemoteCall.messagesCreate tid "user" message,
        RemoteCall.runsCreate tid aid], rfl, by simp [List.count_cons]⟩
    | ok rid =>
      exact ⟨[RemoteCall.messagesCreate tid "user" message,
        RemoteCall.runsCreate tid aid], rfl, by simp [List.count_cons]⟩

lemma chatAfterThread_stream (tid message aid : String) (env : ChatEnv)
    (pre : List RemoteCall) (tid' rid : String)
    (h : (chatAfterThread tid message aid env pre).2 = ChatResult.stream tid' rid) :
    tid' = tid ∧ env.runsCreate tid aid = Except.ok rid := by
  unfold chatAfterThread at h
  cases hmc : env.messagesCreate tid message with
  | error e => rw [hmc] at h; simp at h
  | ok u =>
    rw [hmc] at h
    cases hrc : env.runsCreate tid aid with
    | error e => rw [hrc] at h; simp at h
    | ok rid0 =>
      rw [hrc] at h
      simp only [ChatResult.stream.injEq] at h
      exact ⟨h.1.symm, by simp [hrc, h.2]⟩

/-- Counterexample to claim C5 as stated: the request supplies
`thread_id` as the empty string, yet `/chat` performs a thread-creation
call (the source tests `if not thread_id:`, Python truthiness, so an
empty supplied id triggers creation) and streams under the newly created
id rather than echoing the supplied value. -/
theorem c5_counterexample_empty_thread_id :
    (chat (Except.ok ⟨some "hi", some ""⟩) "asst_1"
        ⟨Except.ok "thread_new", fun _ _ => Except.ok (), fun _ _ => Except.ok "run_1"⟩).1.count
      RemoteCall.threadsCreate = 1 ∧
    (chat (Except.ok ⟨some "hi", some ""⟩) "asst_1"
        ⟨Except.ok "thread_new", fun _ _ => Except.ok (), fun _ _ => Except.ok "run_1"⟩).2 =
      ChatResult.stream "thread_new" "run_1" := by
  constructor <;> rfl

/-- Claim C5 (amended): with no `thread_id` or a falsy (empty) one,
exactly one thread-creation call occurs and a started stream runs under
the id issued by that call; with a non-empty `thread_id` supplied, no
thread-creation call occurs and the stream runs under the supplied value
unchanged; and every frame the generator yields carries, in its
`thread_id` field, exactly the thread id the stream runs under. -/
theorem c5_thread_id_amended (data : ChatRequest) (aid : String) (env : ChatEnv) :
    (truthy data.thread_id = false →
       (chat (Except.ok data) aid env).1.count RemoteCall.threadsCreate = 1 ∧
       ∀ tid rid, (chat (Except.ok data) aid env).2 = ChatResult.stream tid rid →
         env.threadsCreate = Except.ok tid) ∧
    (∀ t, data.thread_id = some t → ¬ t = "" →
       (chat (Except.ok data) aid env).1.count RemoteCall.threadsCreate = 0 ∧
       ∀ tid rid, (chat (Except.ok data) aid env).2 = ChatResult.stream tid rid → tid = t) ∧
    (∀ run tid fuel f, f ∈ emits (generate run tid fuel).trace →
       (∃ v, f = contentFrame v tid) ∨ f = errorFrame tid) := by
  refine ⟨?_, ?_, ?_⟩
  · intro hfalsy
    cases htc : env.threadsCreate with
    | error e =>
      have hchat : chat (Except.ok data) aid env =
          ([RemoteCall.threadsCreate], ChatResult.serverError e) := by
        simp [chat, hfalsy, htc]
      rw [hchat]
      exact ⟨by simp [List.count_cons], fun tid rid h => by simp at h⟩
    | ok tid0 =>
      have hchat : chat (Except.ok data) aid env =
          chatAfterThread tid0 (data.message.getD "") aid env [RemoteCall.threadsCreate] := by
        simp [chat, hfalsy, htc]
      rw [hchat]
      obtain ⟨rest, htr, hcount⟩ :=
        chatAfterThread_trace tid0 (data.message.getD "") aid env [RemoteCall.threadsCreate]
      constructor
      · rw [htr, List.count_append, hcount]
        simp [List.count_cons]
      · intro tid rid h
        obtain ⟨rfl, _⟩ := chatAfterThread_stream tid0 (data.message.getD "") aid env
          [RemoteCall.threadsCreate] tid rid h
        rfl
  · intro t ht hne
    have htruthy : truthy data.thread_id = true := by
      rw [ht]; simp [truthy, hne]
    have hgetD : data.thread_id.getD "" = t := by rw [ht]; rfl
    have hchat : chat (Except.ok data) aid env =
        chatAfterThread t (data.message.getD "") aid env [] := by
      simp [chat, htruthy, hgetD]
    rw [hchat]
    obtain ⟨rest, htr, hcount⟩ :=
      chatAfterThread_trace t (data.message.getD "") aid env []
    constructor
    · rw [htr, List.count_append, hcount]; rfl
    · intro tid rid h
      exact (chatAfterThread_stream t (data.message.getD "") aid env [] tid rid h).1
  · intro run tid fuel f hf
    rcases generateLoop_shape run tid fuel 0 with h | ⟨pre, f0, htr, hpre, _, hform⟩
    · rw [show emits (generate run tid fuel).trace =
          emits (generateLoop run tid 0 fuel).trace from rfl, h] at hf
      cases hf
    · have : emits (generate run tid fuel).trace = [f0] := by
        show emits (generateLoop run tid 0 fuel).trace = [f0]
        rw [htr, emits_append, hpre, emits_emit]
        rfl
      rw [this] at hf
      have hf0 : f = f0 := by simpa using hf
      rw [hf0]
      exact hform

/-- Witness for the amended C5: with no `thread_id` one creation call is
counted; with `thread_id` `"thread_42"` supplied, none is. -/
theorem c5_thread_id_amended_witness :
    (chat (Except.ok ⟨some "hi", none⟩) "asst_1"
        ⟨Except.ok "thread_new", fun _ _ => Except.ok (), fun _ _ => Except.ok "run_1"⟩).1.count
      RemoteCall.threadsCreate = 1 ∧
    (chat (Except.ok ⟨some "hi", some "thread_42"⟩) "asst_1"
        ⟨Except.ok "thread_new", fun _ _ => Except.ok (), fun _ _ => Except.ok "run_1"⟩).1.count
      RemoteCall.threadsCreate = 0 := by
  constructor
  · exact ((c5_thread_id_amended ⟨some "hi", none⟩ "asst_1"
      ⟨Except.ok "thread_new", fun _ _ => Except.ok (), fun _ _ => Except.ok "run_1"⟩).1 rfl).1
  · exact ((c5_thread_id_amended ⟨some "hi", some "thread_42"⟩ "asst_1"
      ⟨Except.ok "thread_new", fun _ _ => Except.ok (), fun _ _ => Except.ok "run_1"⟩).2.1
      "thread_42" rfl (by decide)).1

/-- Claim C6: with a configured (non-empty — `os.getenv` truthiness
treats an empty `ASSISTANT_ID` like an unset one) assistant id whose
retrieval succeeds, the provisioner returns exactly that id and performs
no creation call; with no configured id, or when retrieval raises, it
performs exactly one creation call and returns the freshly issued id. -/
theorem c6_provisioner_reuse_or_create (cfg : Option String) (env : ProvisionEnv) :
    (∀ aid, cfg = some aid → ¬ aid = "" → env.retrieve aid = Except.ok () →
       get_or_create_assistant cfg env =
         ([RemoteCall.assistantsRetrieve aid], Except.ok aid)) ∧
    (∀ fresh, truthy cfg = false → env.create = Except.ok fresh →
       get_or_create_assistant cfg env = ([RemoteCall.assistantsCreate], Except.ok fresh)) ∧
    (∀ aid e fresh, cfg = some aid → ¬ aid = "" → env.retrieve aid = Except.error e →
       env.create = Except.ok fresh →
       get_or_create_assistant cfg env =
         ([RemoteCall.assistantsRetrieve aid, RemoteCall.assistantsCreate],
           Except.ok fresh)) := by
  refine ⟨?_, ?_, ?_⟩
  · intro aid hcfg hne hret
    subst hcfg
    have htruthy : truthy (some aid) = true := by simp [truthy, hne]
    unfold get_or_create_assistant
    rw [htruthy]
    simp [hret]
  · intro fresh hfalsy hcreate
    unfold get_or_create_assistant
    rw [hfalsy]
    simp [hcreate]
  · intro aid e fresh hcfg hne hret hcreate
    subst hcfg
    have htruthy : truthy (some aid) = true := by simp [truthy, hne]
    unfold get_or_create_assistant
    rw [htruthy]
    simp [hret, hcreate]

/-- Witness for C6: a resolvable configured id is returned as-is; with no
configured id the freshly created id is returned after one creation. -/
theorem c6_provisioner_reuse_or_create_witness :
    get_or_create_assistant (some "asst_cfg")
        ⟨fun _ => Except.ok (), Except.ok "asst_new"⟩ =
      ([RemoteCall.assistantsRetrieve "asst_cfg"], Except.ok "asst_cfg") ∧
    get_or_create_assistant none ⟨fun _ => Except.ok (), Except.ok "asst_new"⟩ =
      ([RemoteCall.assistantsCreate], Except.ok "asst_new") := by
  constructor
  · exact (c6_provisioner_reuse_or_create (some "asst_cfg")
      ⟨fun _ => Except.ok (), Except.ok "asst_new"⟩).1 "asst_cfg" rfl (by decide) rfl
  · exact (c6_provisioner_reuse_or_create none
      ⟨fun _ => Except.ok (), Except.ok "asst_new"⟩).2.1 "asst_new" rfl rfl

/-- Counterexample to claim C7 as stated: a request-body parse exception
is raised by `request.json` on line 64, before the `try` block starting
on line 68, so it escapes the handler (Flask's default error machinery
answers) instead of being caught and reported as the handler's HTTP 500
JSON error body. -/
theorem c7_counterexample_parse_outside_try :
    chat (Except.error "Failed to decode JSON object") "asst_1"
        ⟨Except.ok "thread_new", fun _ _ => Except.ok (), fun _ _ => Except.ok "run_1"⟩ =
      ([], ChatResult.unhandled "Failed to decode JSON object") ∧
    isServerError (chat (Except.error "Failed to decode JSON object") "asst_1"
        ⟨Except.ok "thread_new", fun _ _ => Except.ok (), fun _ _ => Except.ok "run_1"⟩).2 =
      false := by
  constructor <;> rfl

/-- Claim C7 (amended): an exception raised inside the `try` block before
streaming starts — the remote thread-creation, message-creation and
run-creation calls — is caught and reported as HTTP 500 with JSON body
`\x7b"error": <message>\x7d`; an exception while parsing the request body
is raised before the `try` block and is not caught by the handler. -/
theorem c7_pre_stream_exceptions_amended (data : ChatRequest) (aid : String)
    (env : ChatEnv) (e : String) :
    (chat (Except.error e) aid env = ([], ChatResult.unhandled e)) ∧
    (truthy data.thread_id = false → env.threadsCreate = Except.error e →
       (chat (Except.ok data) aid env).2 = ChatResult.serverError e) ∧
    (∀ tid, resolvesTo data env tid →
       env.messagesCreate tid (data.message.getD "") = Except.error e →
       (chat (Except.ok data) aid env).2 = ChatResult.serverError e) ∧
    (∀ tid, resolvesTo data env tid →
       env.messagesCreate tid (data.message.getD "") = Except.ok () →
       env.runsCreate tid aid = Except.error e →
       (chat (Except.ok data) aid env).2 = ChatResult.serverError e) := by
  refine ⟨rfl, ?_, ?_, ?_⟩
  · intro hfalsy htc
    simp [chat, hfalsy, htc]
  · intro tid hres hmc
    rcases hres with ⟨htruthy, ht⟩ | ⟨hfalsy, htc⟩
    · have hgetD : data.thread_id.getD "" = tid := by rw [ht]; rfl
      simp [chat, chatAfterThread, htruthy, hgetD, hmc]
    · simp [chat, chatAfterThread, hfalsy, htc, hmc]
  · intro tid hres hmc hrc
    rcases hres with ⟨htruthy, ht⟩ | ⟨hfalsy, htc⟩
    · have hgetD : data.thread_id.getD "" = tid := by rw [ht]; rfl
      simp [chat, chatAfterThread, htruthy, hgetD, hmc, hrc]
    · simp [chat, chatAfterThread, hfalsy, htc, hmc, hrc]

/-- Witness for the amended C7: a failing `threads.create` is answered
with the handler's 500, and a parse failure is left unhandled. -/
theorem c7_pre_stream_exceptions_amended_witness :
    (chat (Except.ok ⟨some "hi", none⟩) "asst_1"
        ⟨Except.error "boom", fun _ _ => Except.ok (), fun _ _ => Except.ok "run_1"⟩).2 =
      ChatResult.serverError "boom" ∧
    chat (Except.error "bad body") "asst_1"
        ⟨Except.error "boom", fun _ _ => Except.ok (), fun _ _ => Except.ok "run_1"⟩ =
      ([], ChatResult.unhandled "bad body") := by
  constructor
  · exact (c7_pre_stream_exceptions_amended ⟨some "hi", none⟩ "asst_1"
      ⟨Except.error "boom", fun _ _ => Except.ok (), fun _ _ => Except.ok "run_1"⟩
      "boom").2.1 rfl rfl
  · exact (c7_pre_stream_exceptions_amended ⟨some "hi", none⟩ "asst_1"
      ⟨Except.error "boom", fun _ _ => Except.ok (), fun _ _ => Except.ok "run_1"⟩
      "bad body").1

/-- Claim C8: an `/upload` with a `file` field whose remote calls succeed
answers HTTP 200 with body `\x7b"file_id": <id>\x7d`, the id being the one
returned by the remote file upload, and performs exactly one
assistant-update call attaching that id. -/
theorem c8_upload_success (aid fid : String) (env : UploadEnv)
    (hup : env.filesCreate = Except.ok fid)
    (hatt : env.assistantsUpdate aid [fid] = Except.ok ()) :
    upload_file true aid env =
      ([RemoteCall.filesCreate, RemoteCall.assistantsUpdate aid [fid]],
        UploadResult.ok fid) ∧
    uploadResponse (UploadResult.ok fid) = (200, jsonObj1 "file_id" fid) ∧
    (upload_file true aid env).1.count (RemoteCall.assistantsUpdate aid [fid]) = 1 := by
  have hmain : upload_file true aid env =
      ([RemoteCall.filesCreate, RemoteCall.assistantsUpdate aid [fid]],
        UploadResult.ok fid) := by
    unfold upload_file
    simp [hup, hatt]
  refine ⟨hmain, rfl, ?_⟩
  rw [hmain]
  simp [List.count_cons]

/-- Witness for C8 at a concrete upload environment. -/
theorem c8_upload_success_witness :
    upload_file true "asst_1"
        ⟨Except.ok "file_9", fun _ _ => Except.ok ()⟩ =
      ([RemoteCall.filesCreate, RemoteCall.assistantsUpdate "asst_1" ["file_9"]],
        UploadResult.ok "file_9") :=
  (c8_upload_success "asst_1" "file_9" ⟨Except.ok "file_9", fun _ _ => Except.ok ()⟩
    rfl rfl).1

/-- Claim C9: an `/upload` with no `file` field answers HTTP 400 with
body exactly `\x7b"error": "No file provided"\x7d` and makes zero remote
calls. -/
theorem c9_upload_no_file (aid : String) (env : UploadEnv) :
    upload_file false aid env = ([], UploadResult.noFile) ∧
    uploadResponse UploadResult.noFile = (400, jsonObj1 "error" "No file provided") :=
  ⟨rfl, rfl⟩

/-- The `file_ids` argument of an assistant-update call, when the call is
one. -/
def updateFileIds : RemoteCall → Option (List String)
  | RemoteCall.assistantsUpdate _ fids => some fids
  | _ => none

/-- Claim C10: every successful `/upload` passes, as the `file_ids`
argument of its single assistant-update call, exactly the singleton list
holding the newly uploaded file's id — whatever the environment (so ids
attached by earlier uploads are never included: each upload replaces the
assistant's attached-file set). -/
theorem c10_upload_singleton_file_ids (aid fid : String) (env : UploadEnv)
    (h : (upload_file true aid env).2 = UploadResult.ok fid) :
    (upload_file true aid env).1.filterMap updateFileIds = [[fid]] := by
  cases hup : env.filesCreate with
  | error e =>
    simp only [upload_file, hup] at h
    simp at h
  | ok fid0 =>
    cases hatt : env.assistantsUpdate aid [fid0] with
    | error e =>
      simp only [upload_file, hup, hatt] at h
      simp at h
    | ok u =>
      have hfe : fid0 = fid := by
        simp only [upload_file, hup, hatt] at h
        simpa using h
      subst hfe
      simp [upload_file, hup, hatt, updateFileIds]

/-- Witness for C10 at a concrete upload environment. -/
theorem c10_upload_singleton_file_ids_witness :
    (upload_file true "asst_1"
        ⟨Except.ok "file_9", fun _ _ => Except.ok ()⟩).1.filterMap updateFileIds =
      [["file_9"]] :=
  c10_upload_singleton_file_ids "asst_1" "file_9"
    ⟨Except.ok "file_9", fun _ _ => Except.ok ()⟩ rfl
